import Mathlib

/-!
# Fjord.js — shallow embedding of the structured-concurrency core

This file embeds the three components of `src/fjord.js` — `TideToken`
(cancellation token), `Estuary` (scope tracking in-flight flows) and `Fjord`
(the cascade/tributary orchestrator) — and proves the spec's claims about
them.

Modelling conventions:

* JavaScript is single-threaded and cooperative, so every observable step of
  the library is a deterministic state transformation.  Each method is
  translated into a Lean function over an explicit state, returning both the
  new state and a trace of primitive actions (`Event`) in the order the
  source performs them.
* A thrown JavaScript value is a `Thrown`: either an `Error` instance
  (`Thrown.err`, carrying an `ErrObj`) or any other value (`Thrown.raw`),
  since `throw` accepts arbitrary values and the orchestrator's
  `error instanceof Error` guard distinguishes them.
* The asynchronous completion of a flow is split into phases exactly as the
  promise chain in the source is: `Estuary.flow` is the synchronous part of
  `flow()` (admission check, scheduling, tracking), `Estuary.runFlow` is the
  deferred tick that invokes the undertaking, and `Estuary.flowComplete` is
  the `then`/`finally` handler chain that runs when the undertaking settles.
* `settle()` has a synchronous prologue up to its `await`
  (`Estuary.settleEnter`) and a resolution once the awaited snapshot has
  drained (`Estuary.settleRun`); separating the two phases lets the model
  express a second `settle()` call arriving while the first is still
  waiting.
* The orchestrator's deadline race is resolved by a boolean `timerFirst`
  input saying which side of `Promise.race` wins; when no timeout is
  configured the source never builds the race and the input is ignored.
-/

namespace Fjordjs

/-- An `Error` object constructed by the library or by user code.
`estuaryFrozen` is the object built by `flow()` on a closed scope (message
"Estuary frozen: scope closed or task error occurred"; the spec's
`ScopeClosed` kind); `fjordTimeout ms` is the object built by the deadline
timer (message "Fjord timeout exceeded: <ms>ms"; the spec's
`DeadlineExceeded` kind); `custom` is any other user-made `Error`. -/
inductive ErrObj where
  | estuaryFrozen : ErrObj
  | fjordTimeout (ms : Nat) : ErrObj
  | custom (code : Nat) : ErrObj
deriving DecidableEq

/-- A value thrown in JavaScript: an `Error` instance or any other value. -/
inductive Thrown where
  | err (e : ErrObj) : Thrown
  | raw (v : Nat) : Thrown
deriving DecidableEq

/-- The `instanceof Error` test used by the orchestrator's catch blocks. -/
def Thrown.isErrorInstance : Thrown → Bool
  | .err _ => true
  | .raw _ => false

/-- The policy tag passed to the configured `onError` observer. -/
inductive Policy where
  | cascadePolicy : Policy
  | tributaryPolicy : Policy
deriving DecidableEq

/-- Primitive observable actions of the library, in source order:
`armToken` is `tideToken.freeze()`; `settleScope` is `await estuary.settle()`;
`observe e p` is `this.onError(e, p)`; `deferOp h` is the
`Promise.resolve().then(...)` scheduling of undertaking `h`;
`deliverValue`/`deliverError` is the settlement of flow `h`'s promise chain;
`removeFlow h` is `this.flows.delete(...)` in the `finally` handler. -/
inductive Event where
  | armToken : Event
  | settleScope : Event
  | observe (e : ErrObj) (p : Policy) : Event
  | deferOp (h : Nat) : Event
  | deliverValue (h : Nat) (v : Nat) : Event
  | deliverError (h : Nat) (e : Thrown) : Event
  | removeFlow (h : Nat) : Event
deriving DecidableEq

/-- Whether a trace contains an invocation of the failure observer. -/
def hasObserve : List Event → Bool
  | [] => false
  | .observe _ _ :: _ => true
  | _ :: tr => hasObserve tr

/-- `TideToken`: cancellation primitive wrapping `AbortSignal`; its whole
state is the signal's aborted flag. -/
structure TideToken where
  frozen : Bool
deriving DecidableEq

/-- `new TideToken()`: a fresh, unaborted controller. -/
def TideToken.new : TideToken := { frozen := false }

/-- `isFrozen()`: reads `signal.aborted`. -/
def TideToken.isFrozen (t : TideToken) : Bool := t.frozen

/-- `freeze()`: `abortController.abort()` — sets the aborted flag; aborting
an already-aborted controller is a no-op. -/
def TideToken.freeze (t : TideToken) : TideToken := { t with frozen := true }

/-- `Estuary`: a scope holding a reference to its token, the tracking set of
in-flight flow handles (modelled as a list of handles, insertion order), and
the `settled` guard flag. -/
structure Estuary where
  tideToken : TideToken
  flows : List Nat
  settled : Bool
deriving DecidableEq

/-- `new Estuary(tideToken)`. -/
def Estuary.new (t : TideToken) : Estuary :=
  { tideToken := t, flows := [], settled := false }

/-- `estuary.isFrozen()`: delegates to the token. -/
def Estuary.isFrozen (s : Estuary) : Bool := s.tideToken.isFrozen

/-- What `flow()` hands back synchronously: an already-rejected promise
(frozen scope) or a pending promise identified by a fresh handle. -/
inductive LaunchOutcome where
  | rejected (e : ErrObj) : LaunchOutcome
  | pending (h : Nat) : LaunchOutcome
deriving DecidableEq

/-- The synchronous part of `Estuary.flow(undertaking)`: if the token is
frozen, return `Promise.reject(new Error('Estuary frozen: ...'))` without
touching the scope; otherwise build the deferred chain
`Promise.resolve().then(() => undertaking())` (handle `h` names the fresh
promise), track it, and return the still-pending chained promise.  The
undertaking `u` itself is not invoked here — it runs on a later tick
(`runFlow`). -/
def Estuary.flow (s : Estuary) (h : Nat) (u : Unit → Except Thrown Nat) :
    LaunchOutcome × List Event × Estuary :=
  if s.tideToken.isFrozen then
    (.rejected .estuaryFrozen, [], s)
  else
    let _ := u
    (.pending h, [.deferOp h], { s with flows := s.flows ++ [h] })

/-- The deferred tick: the microtask queued by
`Promise.resolve().then(() => undertaking())` finally invokes the
undertaking and produces the flow's terminal outcome. -/
def Estuary.runFlow (u : Unit → Except Thrown Nat) : Except Thrown Nat := u ()

/-- The completion handlers of a tracked flow, exactly the chain
`flowPromise.then(result => result, error => { freeze(); throw error })
.finally(() => flows.delete(flowPromise))`: on failure the token is frozen
first, then the failure is rethrown into the returned future; on success the
value passes through; the `finally` stage removes the handle in both
branches. -/
def Estuary.flowComplete (s : Estuary) (h : Nat) (outcome : Except Thrown Nat) :
    List Event × Estuary :=
  match outcome with
  | .ok v =>
      ([.deliverValue h v, .removeFlow h],
       { s with flows := s.flows.erase h })
  | .error e =>
      ([.armToken, .deliverError h e, .removeFlow h],
       { s with tideToken := s.tideToken.freeze, flows := s.flows.erase h })

/-- The synchronous outcome of one call to `settle()` up to its `await`:
either the call completed at once (`finished`, the guard saw
`this.settled === true`) or it set the guard and is now awaiting
`Promise.allSettled` of the snapshot `Array.from(this.flows)`. -/
inductive SettleCall where
  | finished : SettleCall
  | waiting (snapshot : List Nat) : SettleCall
deriving DecidableEq

/-- The prologue of `Estuary.settle()`: `if (this.settled) return;
this.settled = true;` followed by taking the snapshot for
`Promise.allSettled(Array.from(this.flows))`. -/
def Estuary.settleEnter (s : Estuary) : SettleCall × Estuary :=
  if s.settled then (.finished, s)
  else (.waiting s.flows, { s with settled := true })

/-- Draining a snapshot: each awaited flow settles with its outcome and its
completion handlers (`flowComplete`) run before `settle`'s continuation
resumes (their reactions were registered on the flow promise first). -/
def Estuary.drain (s : Estuary) (snapshot : List Nat)
    (outcome : Nat → Except Thrown Nat) : Estuary :=
  snapshot.foldl (fun st h => (st.flowComplete h (outcome h)).2) s

/-- One whole call to `Estuary.settle()`, given the terminal outcome each
awaited flow will reach: if the guard was already set the call resolves at
once; otherwise it resolves after the snapshot drains.  `Promise.allSettled`
never rejects, and the surrounding `try`/`catch` silences anything anyway,
so the call always resolves with `ok ()`. -/
def Estuary.settleRun (s : Estuary) (outcome : Nat → Except Thrown Nat) :
    Except Thrown Unit × Estuary :=
  match s.settleEnter with
  | (.finished, s1) => (.ok (), s1)
  | (.waiting snap, s1) => (.ok (), s1.drain snap outcome)

/-- The option bag accepted by `new Fjord(options)`: `timeout` is `none` for
an absent property and `some n` for a numeric one (`0` is falsy in
JavaScript); `onError` records whether an observer is configured. -/
structure FjordOptions where
  timeout : Option Nat
  onError : Bool
deriving DecidableEq

/-- The orchestrator's stored configuration after construction. -/
structure Fjord where
  timeout : Option Nat
  onError : Bool
deriving DecidableEq

/-- The `Fjord` constructor: `this.timeout = options.timeout || null` maps
every falsy duration (absent or `0`) to `null`; `this.onError =
options.onError || null`. -/
def Fjord.ofOptions (o : FjordOptions) : Fjord :=
  { timeout :=
      match o.timeout with
      | none => none
      | some n => if n = 0 then none else some n,
    onError := o.onError }

/-- `_executeWithTimeout(promise, tideToken)`: with no configured timeout the
body's promise is returned as-is (no race is built, `timerFirst` is
irrelevant); with a timeout the body is raced against a timer whose callback
freezes the token and rejects with the `Fjord timeout exceeded` error
carrying the configured duration. -/
def Fjord.executeWithTimeout (f : Fjord) (body : Except Thrown Nat)
    (timerFirst : Bool) : Except Thrown Nat × List Event :=
  match f.timeout with
  | none => (body, [])
  | some t =>
      if timerFirst then
        (.error (.err (.fjordTimeout t)), [.armToken])
      else (body, [])

/-- The guarded observer call `if (this.onError && error instanceof Error)
this.onError(error, tag)`. -/
def observerEvents (onError : Bool) (e : Thrown) (p : Policy) : List Event :=
  match onError, e with
  | true, .err eo => [.observe eo p]
  | _, _ => []

/-- `Fjord.cascade(scopeCallback)`, as a function of the raced body outcome:
on success it settles the scope and returns the value (no freeze); in the
catch block it freezes, settles, maybe invokes the observer, and rethrows
the original error. -/
def Fjord.cascade (f : Fjord) (body : Except Thrown Nat) (timerFirst : Bool) :
    Except Thrown Nat × List Event :=
  match f.executeWithTimeout body timerFirst with
  | (.ok v, tr) => (.ok v, tr ++ [.settleScope])
  | (.error e, tr) =>
      (.error e,
       tr ++ [.armToken, .settleScope] ++ observerEvents f.onError e .cascadePolicy)

/-- `Fjord.tributary(scopeCallback)`: identical to `cascade` except that the
success path freezes the token before settling; the catch block tags the
observer with `tributary`. -/
def Fjord.tributary (f : Fjord) (body : Except Thrown Nat) (timerFirst : Bool) :
    Except Thrown Nat × List Event :=
  match f.executeWithTimeout body timerFirst with
  | (.ok v, tr) => (.ok v, tr ++ [.armToken, .settleScope])
  | (.error e, tr) =>
      (.error e,
       tr ++ [.armToken, .settleScope] ++ observerEvents f.onError e .tributaryPolicy)

/- ## Helper lemmas -/

/-- When no timeout is configured, or the body wins the race, the raced
result is the body's outcome and the timer contributes nothing. -/
theorem executeWithTimeout_no_fire (f : Fjord) (body : Except Thrown Nat)
    (tf : Bool) (h : f.timeout = none ∨ tf = false) :
    f.executeWithTimeout body tf = (body, []) := by
  rcases h with h | h
  · simp [Fjord.executeWithTimeout, h]
  · cases ht : f.timeout <;> simp [Fjord.executeWithTimeout, ht, h]

/-- Completing a flow erases its handle from the tracking list, whatever the
outcome. -/
theorem flowComplete_flows (s : Estuary) (h : Nat) (o : Except Thrown Nat) :
    ((s.flowComplete h o).2).flows = s.flows.erase h := by
  cases o <;> rfl

/-- Draining a snapshot erases each snapshot handle from the tracking list
in order. -/
theorem drain_flows (snap : List Nat) (s : Estuary)
    (f : Nat → Except Thrown Nat) :
    (s.drain snap f).flows = snap.foldl (fun l h => l.erase h) s.flows := by
  induction snap generalizing s with
  | nil => rfl
  | cons x xs ih =>
      simp only [Estuary.drain, List.foldl_cons] at *
      rw [ih ((s.flowComplete x (f x)).2)]
      rw [flowComplete_flows]

/-- Erasing every element of a list from that same list leaves it empty. -/
theorem foldl_erase_self (l : List Nat) :
    l.foldl (fun acc h => acc.erase h) l = [] := by
  induction l with
  | nil => rfl
  | cons x xs ih =>
      simp only [List.foldl_cons, List.erase_cons_head]
      exact ih

/-- `hasObserve` distributes over append. -/
theorem hasObserve_append (l1 l2 : List Event) :
    hasObserve (l1 ++ l2) = (hasObserve l1 || hasObserve l2) := by
  induction l1 with
  | nil => rfl
  | cons x xs ih => cases x <;> simp [hasObserve, ih]

/-- The raced execution itself never invokes the observer. -/
theorem executeWithTimeout_no_observe (f : Fjord) (body : Except Thrown Nat)
    (tf : Bool) : hasObserve (f.executeWithTimeout body tf).2 = false := by
  unfold Fjord.executeWithTimeout
  cases f.timeout with
  | none => rfl
  | some t => cases tf <;> rfl

/-- The guarded observer call produces an observation exactly when an
observer is configured and the thrown value is an `Error` instance. -/
theorem hasObserve_observerEvents (b : Bool) (e : Thrown) (p : Policy) :
    hasObserve (observerEvents b e p) = (b && e.isErrorInstance) := by
  cases b <;> cases e <;> rfl

/-- Completing a flow never unfreezes the token. -/
theorem flowComplete_frozen_mono (s : Estuary) (h : Nat)
    (o : Except Thrown Nat) (hf : s.tideToken.isFrozen = true) :
    ((s.flowComplete h o).2).tideToken.isFrozen = true := by
  cases o with
  | ok v => exact hf
  | error e => rfl

/-- Draining a snapshot never unfreezes the token. -/
theorem drain_frozen_mono (snap : List Nat) (s : Estuary)
    (f : Nat → Except Thrown Nat) (hf : s.tideToken.isFrozen = true) :
    ((s.drain snap f)).tideToken.isFrozen = true := by
  induction snap generalizing s with
  | nil => exact hf
  | cons x xs ih => exact ih _ (flowComplete_frozen_mono s x (f x) hf)

/-- A whole `settle()` call never unfreezes the token. -/
theorem settleRun_frozen_mono (s : Estuary) (f : Nat → Except Thrown Nat)
    (hf : s.tideToken.isFrozen = true) :
    (((s.settleRun f)).2).tideToken.isFrozen = true := by
  unfold Estuary.settleRun Estuary.settleEnter
  by_cases hs : s.settled = true <;> simp [hs]
  · exact hf
  · exact drain_frozen_mono s.flows { s with settled := true } f hf

/- ## Claim theorems -/

/-- C1: for a call whose body resolves successfully (and whose deadline, if
any, did not fire), `cascade` settles and returns the value without ever
arming the token, while `tributary` arms the token immediately on the body's
success, then settles, then returns the value; the tributary success trace
is exactly the cascade success trace with that one arming prepended — the
only behavioural difference between the two success paths. -/
theorem cascade_tributary_success_asymmetry (f : Fjord) (v : Nat) (tf : Bool)
    (h : f.timeout = none ∨ tf = false) :
    f.cascade (.ok v) tf = (.ok v, [.settleScope]) ∧
    f.tributary (.ok v) tf = (.ok v, [.armToken, .settleScope]) ∧
    Event.armToken ∉ (f.cascade (.ok v) tf).2 ∧
    (f.tributary (.ok v) tf).2 = Event.armToken :: (f.cascade (.ok v) tf).2 := by
  have he := executeWithTimeout_no_fire f (.ok v) tf h
  refine ⟨?_, ?_, ?_, ?_⟩ <;>
    simp [Fjord.cascade, Fjord.tributary, he]

/-- C1 witness: the asymmetry at a concrete configuration and value. -/
theorem cascade_tributary_success_asymmetry_witness :
    (Fjord.mk none false).cascade (.ok 7) false = (.ok 7, [.settleScope]) ∧
    (Fjord.mk none false).tributary (.ok 7) false
      = (.ok 7, [.armToken, .settleScope]) ∧
    Event.armToken ∉ ((Fjord.mk none false).cascade (.ok 7) false).2 ∧
    ((Fjord.mk none false).tributary (.ok 7) false).2
      = Event.armToken :: ((Fjord.mk none false).cascade (.ok 7) false).2 :=
  cascade_tributary_success_asymmetry ⟨none, false⟩ 7 false (Or.inl rfl)

/-- C2: when a tracked flow reaches terminal state, the failure branch arms
the shared token first and only then delivers the failure to the returned
future, the success branch delivers the value, and in both branches the last
action is the unconditional removal of the handle from the tracking
collection. -/
theorem flow_terminal_delivery (s : Estuary) (hd : Nat) (e : Thrown) (v : Nat) :
    (s.flowComplete hd (.error e)).1
        = [.armToken, .deliverError hd e, .removeFlow hd] ∧
    ((s.flowComplete hd (.error e)).2).tideToken.isFrozen = true ∧
    (s.flowComplete hd (.ok v)).1 = [.deliverValue hd v, .removeFlow hd] ∧
    (s.flowComplete hd (.error e)).1.getLast? = some (.removeFlow hd) ∧
    (s.flowComplete hd (.ok v)).1.getLast? = some (.removeFlow hd) ∧
    ((s.flowComplete hd (.error e)).2).flows = s.flows.erase hd ∧
    ((s.flowComplete hd (.ok v)).2).flows = s.flows.erase hd := by
  refine ⟨rfl, rfl, rfl, ?_, ?_, rfl, rfl⟩ <;> rfl

/-- C3: a launch attempted while the token is armed immediately yields an
already-rejected future carrying the scope-closed error, leaves the scope
(tracking collection included) untouched, schedules nothing, and never
invokes the supplied operation — the result does not depend on it. -/
theorem flow_on_frozen_scope (s : Estuary) (hd : Nat)
    (u1 u2 : Unit → Except Thrown Nat)
    (hf : s.tideToken.isFrozen = true) :
    s.flow hd u1 = (.rejected .estuaryFrozen, [], s) ∧
    s.flow hd u1 = s.flow hd u2 := by
  constructor <;> simp [Estuary.flow, hf]

/-- C3 witness: launching into a frozen scope at concrete inputs. -/
theorem flow_on_frozen_scope_witness :
    (Estuary.mk ⟨true⟩ [] false).flow 0 (fun _ => .ok 1)
        = (.rejected .estuaryFrozen, [], Estuary.mk ⟨true⟩ [] false) ∧
    (Estuary.mk ⟨true⟩ [] false).flow 0 (fun _ => .ok 1)
        = (Estuary.mk ⟨true⟩ [] false).flow 0 (fun _ => .error (.raw 2)) :=
  flow_on_frozen_scope (Estuary.mk ⟨true⟩ [] false) 0
    (fun _ => .ok 1) (fun _ => .error (.raw 2)) rfl

/-- C8: a launch accepted while the token is unarmed hands back a
still-pending future (never a settled one, so it neither synchronously
raises nor synchronously completes), defers the operation to the next
scheduling tick, and appends the handle to the tracking collection; the
synchronous part never invokes the operation — its result does not depend
on it. -/
theorem flow_admission_defers (s : Estuary) (hd : Nat)
    (u1 u2 : Unit → Except Thrown Nat)
    (hf : s.tideToken.isFrozen = false) :
    s.flow hd u1
        = (.pending hd, [.deferOp hd], { s with flows := s.flows ++ [hd] }) ∧
    s.flow hd u1 = s.flow hd u2 := by
  constructor <;> simp [Estuary.flow, hf]

/-- C8 witness: an accepted launch at concrete inputs. -/
theorem flow_admission_defers_witness :
    (Estuary.new TideToken.new).flow 5 (fun _ => .ok 1)
        = (.pending 5, [.deferOp 5], Estuary.mk ⟨false⟩ [5] false) ∧
    (Estuary.new TideToken.new).flow 5 (fun _ => .ok 1)
        = (Estuary.new TideToken.new).flow 5 (fun _ => .error (.raw 2)) :=
  flow_admission_defers (Estuary.new TideToken.new) 5
    (fun _ => .ok 1) (fun _ => .error (.raw 2)) rfl

/-- C4 counterexample: launch one flow into a fresh scope, enter `settle()`
(the call starts waiting on the snapshot `[0]`), then invoke `settle()` a
second time while the first is still pending.  The guard flag is already
set, so the second call completes immediately (`finished`) even though the
operation tracked at its settlement start — handle `0` — has not reached
terminal state (it is still in the tracking collection): the second call
returns prematurely, refuting the claim for concurrent invocation. -/
theorem settle_concurrent_second_call_premature :
    (((((Estuary.new TideToken.new).flow 0 (fun _ => .ok 0)).2.2
        ).settleEnter).2.settleEnter).1 = SettleCall.finished ∧
    ((((Estuary.new TideToken.new).flow 0 (fun _ => .ok 0)).2.2
        ).settleEnter).2.flows = [0] := by
  constructor <;> rfl

/-- C4 (amended): `settle()` is guarded by the `settled` flag, so at most
one call performs the wait and no call ever double-blocks: a call that
finds the flag set completes immediately without any state change, the
first call waits on exactly the operations tracked at its entry, and any
call entered after another has entered completes immediately — but a
concurrent second call may therefore return before the tracked operations
reach terminal state. -/
theorem settle_flag_idempotent (s : Estuary) :
    ((s.settleEnter).2).settled = true ∧
    (s.settled = true → s.settleEnter = (.finished, s)) ∧
    (s.settled = false → (s.settleEnter).1 = .waiting s.flows) ∧
    (((s.settleEnter).2).settleEnter).1 = SettleCall.finished := by
  by_cases hs : s.settled = true <;>
    refine ⟨?_, ?_, ?_, ?_⟩ <;>
      simp_all [Estuary.settleEnter]

/-- C4 witness: the guard behaviour at a concrete unsettled scope. -/
theorem settle_flag_idempotent_witness :
    (((Estuary.mk ⟨false⟩ [3] false).settleEnter).2).settled = true ∧
    ((Estuary.mk ⟨false⟩ [3] false).settleEnter).1 = .waiting [3] ∧
    ((((Estuary.mk ⟨false⟩ [3] false).settleEnter).2).settleEnter).1
      = SettleCall.finished :=
  ⟨(settle_flag_idempotent (Estuary.mk ⟨false⟩ [3] false)).1,
   (settle_flag_idempotent (Estuary.mk ⟨false⟩ [3] false)).2.2.1 rfl,
   (settle_flag_idempotent (Estuary.mk ⟨false⟩ [3] false)).2.2.2⟩

/-- C5 counterexample: in the same concurrent scenario — one in-flight flow,
a first `settle()` already waiting — the second `settle()` call resolves
(with `ok ()`) while the tracking collection still holds handle `0`,
refuting "when a call to settle() resolves, the tracking collection is
empty". -/
theorem settle_resolves_with_nonempty_tracking :
    ((((((Estuary.new TideToken.new).flow 0 (fun _ => .ok 0)).2.2
        ).settleEnter).2).settleRun (fun _ => .ok 0)).1 = Except.ok () ∧
    ((((((Estuary.new TideToken.new).flow 0 (fun _ => .ok 0)).2.2
        ).settleEnter).2).settleRun (fun _ => .ok 0)).2.flows = [0] := by
  constructor <;> rfl

/-- C5 (amended): every call to `settle()` resolves with `ok ()` — it never
re-raises a per-operation failure, whatever outcomes the awaited flows
reach — and the wait-performing call (the one that finds the `settled` flag
unset) drains its snapshot so that on resolution the tracking collection is
empty; a call that finds the flag already set resolves immediately and may
observe a non-empty collection. -/
theorem settle_discards_failures_and_drains (s : Estuary)
    (f : Nat → Except Thrown Nat) :
    (s.settleRun f).1 = Except.ok () ∧
    (s.settled = false → ((s.settleRun f).2).flows = []) := by
  constructor
  · unfold Estuary.settleRun Estuary.settleEnter
    by_cases hs : s.settled <;> simp [hs]
  · intro hs
    unfold Estuary.settleRun Estuary.settleEnter
    simp only [hs, Bool.false_eq_true, if_false]
    rw [drain_flows]
    exact foldl_erase_self s.flows

/-- C5 witness: a first settle over two in-flight flows, one of which
fails, resolves `ok` with the tracking collection drained to empty. -/
theorem settle_discards_failures_and_drains_witness :
    ((Estuary.mk ⟨false⟩ [1, 2] false).settleRun
        (fun h => if h = 1 then .error (.raw 9) else .ok 4)).1
      = Except.ok () ∧
    ((Estuary.mk ⟨false⟩ [1, 2] false).settleRun
        (fun h => if h = 1 then .error (.raw 9) else .ok 4)).2.flows = [] :=
  ⟨(settle_discards_failures_and_drains (Estuary.mk ⟨false⟩ [1, 2] false)
      (fun h => if h = 1 then .error (.raw 9) else .ok 4)).1,
   (settle_discards_failures_and_drains (Estuary.mk ⟨false⟩ [1, 2] false)
      (fun h => if h = 1 then .error (.raw 9) else .ok 4)).2 rfl⟩

/-- C6: with a deadline configured, the body's pending result is raced
against the timer; when the timer fires first it arms the token and the
raced result — hence the whole cascade or tributary call — fails with the
timeout error carrying the configured duration, whatever the body would
have produced. -/
theorem deadline_timer_fires (f : Fjord) (t : Nat) (body : Except Thrown Nat)
    (ht : f.timeout = some t) :
    f.executeWithTimeout body true
        = (.error (.err (.fjordTimeout t)), [.armToken]) ∧
    (f.cascade body true).1 = .error (.err (.fjordTimeout t)) ∧
    (f.tributary body true).1 = .error (.err (.fjordTimeout t)) ∧
    Event.armToken ∈ (f.cascade body true).2 ∧
    Event.armToken ∈ (f.tributary body true).2 := by
  have he : f.executeWithTimeout body true
      = (.error (.err (.fjordTimeout t)), [.armToken]) := by
    simp [Fjord.executeWithTimeout, ht]
  refine ⟨he, ?_, ?_, ?_, ?_⟩ <;>
    simp [Fjord.cascade, Fjord.tributary, he]

/-- C6 witness: a five-unit deadline firing ahead of a body that would have
succeeded. -/
theorem deadline_timer_fires_witness :
    (Fjord.mk (some 5) false).executeWithTimeout (.ok 1) true
        = (.error (.err (.fjordTimeout 5)), [.armToken]) ∧
    ((Fjord.mk (some 5) false).cascade (.ok 1) true).1
        = .error (.err (.fjordTimeout 5)) ∧
    ((Fjord.mk (some 5) false).tributary (.ok 1) true).1
        = .error (.err (.fjordTimeout 5)) ∧
    Event.armToken ∈ ((Fjord.mk (some 5) false).cascade (.ok 1) true).2 ∧
    Event.armToken ∈ ((Fjord.mk (some 5) false).tributary (.ok 1) true).2 :=
  deadline_timer_fires (Fjord.mk (some 5) false) 5 (.ok 1) rfl

/-- C7 counterexample: an orchestrator with an observer configured, whose
body throws a value that is not an `Error` instance.  The call fails and
re-raises that value, but the observer is never invoked — the
`error instanceof Error` guard skips it — refuting "invokes the configured
failure observer ... whatever value was raised". -/
theorem observer_skipped_for_non_error_value :
    ((Fjord.mk none true).cascade (.error (.raw 3)) false).1
        = Except.error (.raw 3) ∧
    hasObserve ((Fjord.mk none true).cascade (.error (.raw 3)) false).2
        = false := by
  constructor <;> rfl

/-- C7 (amended): on any failure — from the body, from an operation
surfacing through the body's combinator, or from the deadline — both
orchestrators arm the token, settle the scope, and re-raise exactly the
original error unchanged; the configured failure observer is invoked with
the error and the policy tag only when the raised value is an `Error`
instance, and is skipped (though the error is still re-raised) when it is
not. -/
theorem failure_path_arm_settle_reraise (f : Fjord) (body : Except Thrown Nat)
    (tf : Bool) (e : Thrown)
    (he : (f.executeWithTimeout body tf).1 = .error e) :
    (f.cascade body tf).1 = .error e ∧
    (f.tributary body tf).1 = .error e ∧
    (f.cascade body tf).2
        = (f.executeWithTimeout body tf).2 ++ [.armToken, .settleScope]
            ++ observerEvents f.onError e .cascadePolicy ∧
    (f.tributary body tf).2
        = (f.executeWithTimeout body tf).2 ++ [.armToken, .settleScope]
            ++ observerEvents f.onError e .tributaryPolicy ∧
    (f.onError = true → e.isErrorInstance = true →
        hasObserve (f.cascade body tf).2 = true ∧
        hasObserve (f.tributary body tf).2 = true) ∧
    (e.isErrorInstance = false →
        hasObserve (f.cascade body tf).2 = false ∧
        hasObserve (f.tributary body tf).2 = false) := by
  cases hx : f.executeWithTimeout body tf with
  | mk r tr =>
    have hno := executeWithTimeout_no_observe f body tf
    rw [hx] at he hno
    obtain rfl : r = Except.error e := he
    refine ⟨?_, ?_, ?_, ?_, ?_, ?_⟩
    · simp [Fjord.cascade, hx]
    · simp [Fjord.tributary, hx]
    · simp [Fjord.cascade, hx]
    · simp [Fjord.tributary, hx]
    · intro hb hi
      constructor <;>
        simp [Fjord.cascade, Fjord.tributary, hx, hasObserve_append,
              hasObserve_observerEvents, hno, hb, hi, hasObserve]
    · intro hi
      constructor <;>
        simp [Fjord.cascade, Fjord.tributary, hx, hasObserve_append,
              hasObserve_observerEvents, hno, hi, hasObserve]

/-- C7 witness: a configured observer, a body failing with an `Error`
instance, no deadline — the call re-raises that error and the observer
fires on both policies. -/
theorem failure_path_arm_settle_reraise_witness :
    ((Fjord.mk none true).cascade (.error (.err (.custom 2))) false).1
        = Except.error (.err (.custom 2)) ∧
    hasObserve
        ((Fjord.mk none true).cascade (.error (.err (.custom 2))) false).2
        = true ∧
    hasObserve
        ((Fjord.mk none true).tributary (.error (.err (.custom 2))) false).2
        = true :=
  ⟨(failure_path_arm_settle_reraise ⟨none, true⟩
      (.error (.err (.custom 2))) false (.err (.custom 2)) rfl).1,
   ((failure_path_arm_settle_reraise ⟨none, true⟩
      (.error (.err (.custom 2))) false (.err (.custom 2)) rfl).2.2.2.2.1
        rfl rfl).1,
   ((failure_path_arm_settle_reraise ⟨none, true⟩
      (.error (.err (.custom 2))) false (.err (.custom 2)) rfl).2.2.2.2.1
        rfl rfl).2⟩

/-- C9: the token is one-way and idempotent — freezing makes `isFrozen`
true, a second freeze is a no-op, any positive number of freezes equals
one, freezing an already-frozen token leaves it unchanged, and no operation
of the system (launch, flow completion, settle entry, a whole settle call)
ever returns a frozen token to the unarmed state. -/
theorem tideToken_one_way (t t2 : TideToken) (n : Nat) (s : Estuary)
    (hd : Nat) (u : Unit → Except Thrown Nat) (o : Except Thrown Nat)
    (f : Nat → Except Thrown Nat)
    (ht2 : t2.isFrozen = true) (hs : s.tideToken.isFrozen = true) :
    (t.freeze).isFrozen = true ∧
    t.freeze.freeze = t.freeze ∧
    TideToken.freeze^[n + 1] t = t.freeze ∧
    t2.freeze = t2 ∧
    ((s.flow hd u).2.2).tideToken.isFrozen = true ∧
    ((s.flowComplete hd o).2).tideToken.isFrozen = true ∧
    (((s.settleEnter).2)).tideToken.isFrozen = true ∧
    ((s.settleRun f).2).tideToken.isFrozen = true := by
  obtain ⟨b⟩ := t2
  have hb : b = true := ht2
  subst hb
  refine ⟨rfl, rfl, ?_, rfl, ?_, ?_, ?_, ?_⟩
  · induction n with
    | zero => rfl
    | succ k ih =>
        rw [Function.iterate_succ_apply', ih]
        rfl
  · simp [Estuary.flow, hs]
  · exact flowComplete_frozen_mono s hd o hs
  · unfold Estuary.settleEnter
    by_cases h3 : s.settled = true <;> simp [h3] <;> exact hs
  · exact settleRun_frozen_mono s f hs

/-- C9 witness: the one-way token facts at concrete inputs — a frozen
scope with one tracked flow, three iterated freezes, and a failing flow
completion. -/
theorem tideToken_one_way_witness :
    ((TideToken.mk false).freeze).isFrozen = true ∧
    TideToken.freeze^[3] (TideToken.mk false) = (TideToken.mk false).freeze ∧
    (TideToken.mk true).freeze = TideToken.mk true ∧
    (((Estuary.mk ⟨true⟩ [1] false).settleRun
        (fun _ => .error (.raw 7))).2).tideToken.isFrozen = true :=
  ⟨(tideToken_one_way ⟨false⟩ ⟨true⟩ 2 (Estuary.mk ⟨true⟩ [1] false) 1
      (fun _ => .ok 0) (.error (.raw 7)) (fun _ => .error (.raw 7))
      rfl rfl).1,
   (tideToken_one_way ⟨false⟩ ⟨true⟩ 2 (Estuary.mk ⟨true⟩ [1] false) 1
      (fun _ => .ok 0) (.error (.raw 7)) (fun _ => .error (.raw 7))
      rfl rfl).2.2.1,
   (tideToken_one_way ⟨false⟩ ⟨true⟩ 2 (Estuary.mk ⟨true⟩ [1] false) 1
      (fun _ => .ok 0) (.error (.raw 7)) (fun _ => .error (.raw 7))
      rfl rfl).2.2.2.1,
   (tideToken_one_way ⟨false⟩ ⟨true⟩ 2 (Estuary.mk ⟨true⟩ [1] false) 1
      (fun _ => .ok 0) (.error (.raw 7)) (fun _ => .error (.raw 7))
      rfl rfl).2.2.2.2.2.2.2⟩

/-- C10: a falsy configured duration (`0`) is normalised to `null` by the
constructor, so the resulting orchestrator equals one configured with no
timeout at all: the raced execution returns the body's outcome untouched
with no timer ever created, and both policies' calls deliver exactly the
body's outcome — the deadline error can never be produced. -/
theorem zero_timeout_like_none (onErr : Bool) (body : Except Thrown Nat)
    (tf : Bool) :
    Fjord.ofOptions ⟨some 0, onErr⟩ = Fjord.ofOptions ⟨none, onErr⟩ ∧
    (Fjord.ofOptions ⟨some 0, onErr⟩).timeout = none ∧
    (Fjord.ofOptions ⟨some 0, onErr⟩).executeWithTimeout body tf
        = (body, []) ∧
    ((Fjord.ofOptions ⟨some 0, onErr⟩).cascade body tf).1 = body ∧
    ((Fjord.ofOptions ⟨some 0, onErr⟩).tributary body tf).1 = body := by
  refine ⟨rfl, rfl, rfl, ?_, ?_⟩ <;> cases body <;> rfl

end Fjordjs
